import Mathlib

/-!
Verification of the cart/order consistency core of the marketplace
storefront: product adaptation (string id → derived numeric display id),
CartStore operations (add / updateQuantity / remove / clear / total),
the checkout order-persistence sequence, catalog search failure modes,
and the seller delete predicate.  All definitions are shallow embeddings
of the TypeScript source (src/types.ts, src/AppRouter.tsx,
src/components/Cart.tsx, src/pages/Checkout.tsx, src/pages/Home.tsx,
src/pages/AddProduct.tsx).
-/

namespace Marketplace

/-! ## Data model (src/types.ts) -/

/-- Type `FetchedProduct` (src/types.ts): the raw row fetched from the record
store.  `image_url : string | null`, `category?`, `rating?` are optional. -/
structure FetchedProduct where
  id : String
  name : String
  description : String
  price : ℚ
  image_url : Option String
  stock_quantity : Int
  category : Option String
  rating : Option ℚ
deriving DecidableEq, Repr

/-- Type `Product` (src/types.ts): the adapted view-model shape used by the UI
components; `id` is the derived numeric display identifier and
`product_id_string` the original persisted string token. -/
structure Product where
  id : Int
  name : String
  price : ℚ
  image : String
  category : String
  rating : ℚ
  reviews : ℚ
  inStock : Bool
  description : String
  stock_quantity : Int
  product_id_string : String
deriving DecidableEq, Repr

/-- Type `CartItem` (src/types.ts): a `Product` plus a quantity. -/
structure CartItem extends Product where
  quantity : Int
deriving DecidableEq, Repr

/-! ## JavaScript numeric/string coercion helpers -/

/-- Whitespace characters stripped by JavaScript `parseInt` before
parsing: the full StrWhiteSpaceChar set, i.e. WhiteSpace (TAB, VT, FF,
SP, NBSP U+00A0, ZWNBSP U+FEFF and the Unicode space separators U+1680,
U+2000–U+200A, U+202F, U+205F, U+3000) together with the
LineTerminators (LF, CR, LS U+2028, PS U+2029). -/
def isJsWhitespace (c : Char) : Bool :=
  c = ' ' ∨ c = '\t' ∨ c = '\n' ∨ c = '\r' ∨
  c = '\x0b' ∨ c = '\x0c' ∨
  c.toNat = 0xA0 ∨ c.toNat = 0xFEFF ∨ c.toNat = 0x1680 ∨
  (0x2000 ≤ c.toNat ∧ c.toNat ≤ 0x200A) ∨
  c.toNat = 0x202F ∨ c.toNat = 0x205F ∨ c.toNat = 0x3000 ∨
  c.toNat = 0x2028 ∨ c.toNat = 0x2029

/-- Hexadecimal digit as accepted by `parseInt(s, 16)`. -/
def isJsHexDigit (c : Char) : Bool :=
  ('0' ≤ c ∧ c ≤ '9') ∨ ('a' ≤ c ∧ c ≤ 'f') ∨ ('A' ≤ c ∧ c ≤ 'F')

/-- Numeric value of a hexadecimal digit. -/
def hexDigitVal (c : Char) : Nat :=
  if 'a' ≤ c ∧ c ≤ 'f' then c.toNat - 'a'.toNat + 10
  else if 'A' ≤ c ∧ c ≤ 'F' then c.toNat - 'A'.toNat + 10
  else c.toNat - '0'.toNat

/-- Value of a list of hex digits read most-significant first. -/
def hexListVal (ds : List Char) : Nat :=
  ds.foldl (fun a c => a * 16 + hexDigitVal c) 0

/-- Embedding of JavaScript `parseInt(·, 16)` on a character list: strip
leading whitespace, an optional sign, an optional `0x`/`0X` prefix, then
read the longest prefix of hexadecimal digits; `none` models the `NaN`
result when no digit is read. -/
def jsParseIntHexCore (cs0 : List Char) : Option Int :=
  let cs := cs0.dropWhile isJsWhitespace
  let sgn : Int := if cs.head? = some '-' then -1 else 1
  let cs := if cs.head? = some '-' ∨ cs.head? = some '+' then cs.tail else cs
  let cs := if cs.take 2 = ['0', 'x'] ∨ cs.take 2 = ['0', 'X'] then cs.drop 2 else cs
  let ds := cs.takeWhile isJsHexDigit
  if ds.isEmpty then none else some (sgn * (hexListVal ds : Int))

/-- Embedding of JavaScript `parseInt(s, 16)` on a string. -/
def jsParseIntHex (s : String) : Option Int :=
  jsParseIntHexCore s.data

/-- Expression `parseInt(productToAdd.id.substring(0, 8), 16) || 0`
(src/AppRouter.tsx line 140, src/pages/Home.tsx line 154): the derived
numeric display identifier; `|| 0` turns the `NaN` parse failure into 0. -/
def deriveDisplayId (id : String) : Int :=
  (jsParseIntHex (String.mk (id.data.take 8))).getD 0

/-- JavaScript `s || fallback` on a string: the fallback replaces the
falsy empty string. -/
def jsOrString (v fallback : String) : String :=
  if v = "" then fallback else v

/-- JavaScript `v || fallback` on a `string | null` value: the fallback
replaces `null` and the empty string. -/
def jsOrOptString (v : Option String) (fallback : String) : String :=
  match v with
  | some s => if s = "" then fallback else s
  | none => fallback

/-! ## ProductViewAdapter (src/AppRouter.tsx lines 138–151,
src/pages/Home.tsx lines 153–166) -/

/-- The adaptation `FetchedProduct → Product` performed identically in
`addToCart` (AppRouter) and in the Home product grid. -/
def adaptProduct (p : FetchedProduct) : Product :=
  { id := deriveDisplayId p.id
    name := p.name
    price := p.price
    image := jsOrOptString p.image_url "https://via.placeholder.com/300?text=No+Image"
    reviews := p.rating.getD 0
    rating := p.rating.getD 0
    inStock := decide (0 < p.stock_quantity)
    category := jsOrOptString p.category "Uncategorized"
    description := jsOrString p.description ""
    stock_quantity := p.stock_quantity
    product_id_string := p.id }

/-- Expression of the source spread `...adaptedProduct` with `quantity: quantityToAdd`
(src/AppRouter.tsx line 169). -/
def mkCartItem (p : Product) (q : Int) : CartItem :=
  { toProduct := p, quantity := q }

/-! ## CartStore operations (src/AppRouter.tsx lines 128–188) -/

/-- Function `addToCart` (src/AppRouter.tsx lines 133–173): adapt the fetched
product, then merge on the numeric display id — if a matching item
exists its quantity is incremented, else a new item is appended. -/
def addToCart (items : List CartItem) (productToAdd : FetchedProduct)
    (quantityToAdd : Int) : List CartItem :=
  let adaptedProduct := adaptProduct productToAdd
  if items.any (fun item => item.id = adaptedProduct.id) then
    items.map (fun item =>
      if item.id = adaptedProduct.id then
        { item with quantity := item.quantity + quantityToAdd }
      else item)
  else
    items ++ [mkCartItem adaptedProduct quantityToAdd]

/-- Function `updateQuantity` (src/AppRouter.tsx lines 178–184): set the matching
item's quantity, then drop every item whose quantity is not positive. -/
def updateQuantity (items : List CartItem) (id quantity : Int) : List CartItem :=
  (items.map (fun item =>
    if item.id = id then { item with quantity := quantity } else item)).filter
    (fun item => 0 < item.quantity)

/-- Function `removeFromCart` (src/AppRouter.tsx lines 186–188). -/
def removeFromCart (items : List CartItem) (id : Int) : List CartItem :=
  items.filter (fun item => item.id ≠ id)

/-- Function `clearCart` (src/AppRouter.tsx lines 128–130). -/
def clearCart : List CartItem := []

/-- The cart operations a session can perform on the CartStore. -/
inductive CartOp where
  | add (p : FetchedProduct) (q : Int)
  | update (id q : Int)
  | remove (id : Int)
  | clear
deriving Repr

/-- Apply one cart operation. -/
def applyOp (items : List CartItem) : CartOp → List CartItem
  | .add p q => addToCart items p q
  | .update id q => updateQuantity items id q
  | .remove id => removeFromCart items id
  | .clear => clearCart

/-- Run a sequence of cart operations from the empty cart. -/
def runOps (ops : List CartOp) : List CartItem :=
  ops.foldl applyOp []

/-! ## Cart component subtotal (src/components/Cart.tsx line 16) -/

/-- The result of JavaScript `Number(x)` on a cart field: a number, or
`NaN` for a non-numeric or missing (`undefined`) value. -/
inductive JsNum where
  | num (q : ℚ)
  | nan
deriving DecidableEq, Repr

/-- JavaScript `x || 0` applied to a `Number(...)` result: `NaN` is
replaced by 0 (and 0 itself stays 0). -/
def jsNumOr0 : JsNum → ℚ
  | .num q => q
  | .nan => 0

/-- A cart line item as seen by the Cart component's total computation:
the price and quantity fields after the `Number(...)` coercion. -/
structure RawCartEntry where
  price : JsNum
  quantity : JsNum
deriving DecidableEq, Repr

/-- Expression `items.reduce((sum, item) => sum + (Number(item.price) || 0) *
(Number(item.quantity) || 0), 0)` (src/components/Cart.tsx line 16). -/
def cartTotal (items : List RawCartEntry) : ℚ :=
  items.foldl (fun sum item => sum + jsNumOr0 item.price * jsNumOr0 item.quantity) 0

/-! ## Checkout order summary (src/pages/Checkout.tsx lines 69–76) -/

/-- Expression `cartItems.reduce((sum, item) => sum + item.price * item.quantity, 0)`
(src/pages/Checkout.tsx line 70). -/
def checkoutSubtotal (items : List CartItem) : ℚ :=
  items.foldl (fun sum item => sum + item.price * (item.quantity : ℚ)) 0

/-- Expression `subtotal > shippingThreshold ? 0 : shippingCost` with
`shippingThreshold = 500`, `shippingCost = 50`
(src/pages/Checkout.tsx lines 71–73). -/
def shippingOf (subtotal : ℚ) : ℚ :=
  if 500 < subtotal then 0 else 50

/-- Expression `subtotal * taxRate` with `taxRate = 0.08`
(src/pages/Checkout.tsx lines 74–75). -/
def taxOf (subtotal : ℚ) : ℚ :=
  subtotal * (0.08 : ℚ)

/-- Expression `subtotal + shipping + tax` (src/pages/Checkout.tsx line 76). -/
def totalOf (subtotal : ℚ) : ℚ :=
  subtotal + shippingOf subtotal + taxOf subtotal

/-! ## placeOrder: the final-step branch of `handleSubmit`
(src/pages/Checkout.tsx lines 84–135) -/

/-- The profile row read at checkout (src/pages/Checkout.tsx lines 10–16);
only `id` matters to `placeOrder`. -/
structure UserProfileData where
  id : String
deriving DecidableEq, Repr

/-- The row inserted into `orders`
(src/pages/Checkout.tsx line 97). -/
structure OrderHeaderRow where
  customer_id : String
  total_amount : ℚ
  status : String
deriving DecidableEq, Repr

/-- A row inserted into `order_items`
(src/pages/Checkout.tsx lines 111–116). -/
structure OrderLineRow where
  order_id : String
  product_id : String
  quantity : Int
  price_at_purchase : ℚ
deriving DecidableEq, Repr

/-- A write request emitted towards the record store by `placeOrder`:
the `orders` insert or the `order_items` batch insert — no other store
call appears in the final-step branch. -/
inductive DbWrite where
  | insertOrder (row : OrderHeaderRow)
  | insertOrderItems (rows : List OrderLineRow)
deriving DecidableEq, Repr

/-- The record store's behaviour for the two writes: the `orders` insert
either fails (or returns no id) or yields the new order id; the
`order_items` insert either fails with a message or succeeds. -/
structure StoreBehavior where
  orderInsert : Except String String
  itemsInsert : Option String
deriving Repr

/-- The failure taxonomy of `placeOrder` as thrown in the source. -/
inductive CheckoutError where
  | notAuthenticated
  | orderCreateFailed (msg : String)
  | missingProductReference (productName : String)
  | orderItemsInsertFailed (msg : String)
deriving DecidableEq, Repr

/-- Outcome of one `placeOrder` run: the write requests issued in order,
whether `clearCart` was invoked, and the reported result. -/
structure PlaceOrderResult where
  writes : List DbWrite
  cleared : Bool
  outcome : Except CheckoutError Unit
deriving Repr

/-- The `cartItems.map` of src/pages/Checkout.tsx lines 104–117: each
item must carry a non-empty `product_id_string` (else the whole map
throws with the item's name) and is turned into an `order_items` row
whose `product_id` is that string token. -/
def buildOrderItems (orderId : String) : List CartItem → Except String (List OrderLineRow)
  | [] => .ok []
  | item :: rest =>
    if item.product_id_string = "" then
      .error item.name
    else
      match buildOrderItems orderId rest with
      | .error e => .error e
      | .ok rows =>
        .ok ({ order_id := orderId
               product_id := item.product_id_string
               quantity := item.quantity
               price_at_purchase := item.price } :: rows)

/-- The final-step branch of `handleSubmit`
(src/pages/Checkout.tsx lines 89–134): require a profile id, insert the
`orders` header with the computed total and status `"pending"`, build
the `order_items` rows (validating every item's persisted product id),
insert them, and clear the cart only after both inserts succeed. -/
def placeOrder (userProfile : Option UserProfileData) (cartItems : List CartItem)
    (store : StoreBehavior) : PlaceOrderResult :=
  match userProfile with
  | none => { writes := [], cleared := false, outcome := .error .notAuthenticated }
  | some profile =>
    let total := totalOf (checkoutSubtotal cartItems)
    let headerRow : OrderHeaderRow :=
      { customer_id := profile.id, total_amount := total, status := "pending" }
    match store.orderInsert with
    | .error msg =>
      { writes := [.insertOrder headerRow], cleared := false
        outcome := .error (.orderCreateFailed msg) }
    | .ok orderId =>
      match buildOrderItems orderId cartItems with
      | .error productName =>
        { writes := [.insertOrder headerRow], cleared := false
          outcome := .error (.missingProductReference productName) }
      | .ok rows =>
        match store.itemsInsert with
        | some msg =>
          { writes := [.insertOrder headerRow, .insertOrderItems rows], cleared := false
            outcome := .error (.orderItemsInsertFailed msg) }
        | none =>
          { writes := [.insertOrder headerRow, .insertOrderItems rows], cleared := true
            outcome := .ok () }

/-! ## Catalog fetch / search (src/pages/Home.tsx lines 29–99) -/

/-- The failure reported by `fetchProducts` via its `dbError` /
catch path. -/
inductive FetchError where
  | embeddingUnavailable
  | storeError (msg : String)
deriving DecidableEq, Repr

/-- The category post-filter of src/pages/Home.tsx lines 78–80. -/
def categoryFilter (selectedCategory : String) (data : List FetchedProduct) :
    List FetchedProduct :=
  if selectedCategory ≠ "All" then
    data.filter (fun p => p.category = some selectedCategory)
  else data

/-- The body of `fetchProducts` (src/pages/Home.tsx lines 30–90) as a
function of the environment's responses: `embedResult` is what
`generateEmbedding(searchQuery)` resolved to (`null` when the embedding
service is unavailable), `rpcResult` the `match_products_by_vector`
response, `regularResult` the plain (already category-filtered) table
read.  A non-empty `searchQuery` takes the AI-search path; a `null`
embedding becomes a thrown `dbError`, never a fallback query. -/
def fetchProducts (searchQuery selectedCategory : String)
    (embedResult : Option (List ℚ))
    (rpcResult regularResult : Except String (List FetchedProduct)) :
    Except FetchError (List FetchedProduct) :=
  if searchQuery ≠ "" then
    match embedResult with
    | some _ =>
      match rpcResult with
      | .error msg => .error (.storeError msg)
      | .ok aiData => .ok (categoryFilter selectedCategory aiData)
    | none => .error .embeddingUnavailable
  else
    match regularResult with
    | .error msg => .error (.storeError msg)
    | .ok regularData => .ok (categoryFilter selectedCategory regularData)

/-! ## Seller delete (src/pages/AddProduct.tsx lines 239–260) -/

/-- A `products` row as far as the delete predicate is concerned. -/
structure ProductRow where
  id : String
  seller_id : String
deriving DecidableEq, Repr

/-- The delete request emitted by `handleDeleteProduct`: both an `id`
equality and a `seller_id` equality filter
(src/pages/AddProduct.tsx lines 245–249). -/
structure DeleteRequest where
  idEq : String
  sellerEq : String
deriving DecidableEq, Repr

/-- Function `handleDeleteProduct` emits the compound-predicate delete for the
given product id and the current seller's user id. -/
def handleDeleteProduct (productId userId : String) : DeleteRequest :=
  { idEq := productId, sellerEq := userId }

/-- The record store's semantics for the emitted delete: a row is
removed exactly when it satisfies both equality filters. -/
def applyDelete (table : List ProductRow) (req : DeleteRequest) : List ProductRow :=
  table.filter (fun row => ¬ (row.id = req.idEq ∧ row.seller_id = req.sellerEq))

/-! ## Well-formedness of reachable carts -/

/-- Cart invariant maintained by every CartStore operation: every item's
display id is the one derived from its persisted string token, and no
two items share a display id. -/
def cartWF (items : List CartItem) : Prop :=
  (∀ it ∈ items, it.id = deriveDisplayId it.product_id_string) ∧
  items.Pairwise (fun a b => a.id ≠ b.id)

lemma cartWF_nil : cartWF [] := ⟨by simp, List.Pairwise.nil⟩

lemma cartWF_map (items : List CartItem) (f : CartItem → CartItem)
    (hid : ∀ it, (f it).id = it.id)
    (hpid : ∀ it, (f it).product_id_string = it.product_id_string)
    (h : cartWF items) : cartWF (items.map f) := by
  constructor
  · intro it hit
    rcases List.mem_map.mp hit with ⟨a, ha, rfl⟩
    rw [hid, hpid]
    exact h.1 a ha
  · exact h.2.map f (fun a b hab => by rw [hid, hid]; exact hab)

lemma cartWF_filter (items : List CartItem) (p : CartItem → Bool)
    (h : cartWF items) : cartWF (items.filter p) :=
  ⟨fun it hit => h.1 it (List.mem_of_mem_filter hit), h.2.filter p⟩

lemma cartWF_applyOp (items : List CartItem) (op : CartOp) (h : cartWF items) :
    cartWF (applyOp items op) := by
  cases op with
  | add p q =>
    show cartWF (addToCart items p q)
    unfold addToCart
    by_cases hany : items.any (fun item => item.id = (adaptProduct p).id) = true
    · rw [if_pos hany]
      exact cartWF_map items _
        (fun it => by by_cases hc : it.id = (adaptProduct p).id <;> simp [hc])
        (fun it => by by_cases hc : it.id = (adaptProduct p).id <;> simp [hc]) h
    · rw [if_neg hany]
      constructor
      · intro it hit
        rcases List.mem_append.mp hit with hin | hnew
        · exact h.1 it hin
        · have : it = mkCartItem (adaptProduct p) q := by simpa using hnew
          subst this
          rfl
      · rw [List.pairwise_append]
        refine ⟨h.2, List.pairwise_singleton _ _, ?_⟩
        intro a ha b hb
        have hb' : b = mkCartItem (adaptProduct p) q := by simpa using hb
        subst hb'
        intro heq
        exact hany (List.any_eq_true.mpr ⟨a, ha, by simpa using heq⟩)
  | update id q =>
    exact cartWF_filter _ _ (cartWF_map items _
      (fun it => by by_cases hc : it.id = id <;> simp [hc])
      (fun it => by by_cases hc : it.id = id <;> simp [hc]) h)
  | remove id =>
    exact cartWF_filter _ _ h
  | clear =>
    exact cartWF_nil

lemma cartWF_runOps (ops : List CartOp) : cartWF (runOps ops) := by
  suffices h : ∀ items, cartWF items → cartWF (ops.foldl applyOp items) from
    h [] cartWF_nil
  induction ops with
  | nil => exact fun items h => h
  | cons op rest ih => exact fun items h => ih _ (cartWF_applyOp items op h)

lemma cartWF_pid_pairwise {items : List CartItem} (h : cartWF items) :
    items.Pairwise (fun a b => a.product_id_string ≠ b.product_id_string) := by
  refine h.2.imp_of_mem ?_
  intro a b ha hb hne hpid
  apply hne
  rw [h.1 a ha, h.1 b hb, hpid]

lemma addToCart_singleton_merge (p : FetchedProduct) (q0 n : Int) :
    addToCart [mkCartItem (adaptProduct p) q0] p n =
      [mkCartItem (adaptProduct p) (q0 + n)] := by
  simp [addToCart, mkCartItem]

lemma addSeq_fold (p : FetchedProduct) :
    ∀ (ns : List Int) (q0 : Int),
      List.foldl (fun s n => applyOp s (CartOp.add p n))
          [mkCartItem (adaptProduct p) q0] ns =
        [mkCartItem (adaptProduct p) (q0 + ns.sum)] := by
  intro ns
  induction ns with
  | nil => intro q0; simp
  | cons n rest ih =>
    intro q0
    show List.foldl _ (addToCart [mkCartItem (adaptProduct p) q0] p n) rest = _
    rw [addToCart_singleton_merge, ih, List.sum_cons, add_assoc]

/-- C1: starting from the empty cart, any sequence of cart operations
leaves at most one line item per distinct persisted product identifier
(merge-on-add), and a non-empty sequence of `add(p, n)` calls for one
product `p` yields exactly one line item for `p` whose quantity is the
sum of the `n` values. -/
theorem cart_merge_unique_per_product :
    (∀ ops : List CartOp,
      (runOps ops).Pairwise (fun a b => a.product_id_string ≠ b.product_id_string)) ∧
    (∀ (p : FetchedProduct) (ns : List Int), ns ≠ [] →
      runOps (ns.map fun n => CartOp.add p n) =
        [mkCartItem (adaptProduct p) ns.sum]) := by
  constructor
  · intro ops
    exact cartWF_pid_pairwise (cartWF_runOps ops)
  · intro p ns hne
    match ns with
    | n :: rest =>
      show (List.map _ (n :: rest)).foldl applyOp [] = _
      rw [List.map_cons, List.foldl_cons, List.foldl_map]
      have h0 : applyOp [] (CartOp.add p n) = [mkCartItem (adaptProduct p) n] := by
        simp [applyOp, addToCart]
      rw [h0, addSeq_fold, List.sum_cons]

/-- Witness for C1 at a concrete product and the add sequence
`[2, 3]`. -/
theorem cart_merge_unique_per_product_witness :
    (runOps [CartOp.add ⟨"ab12", "A", "d", 10, none, 3, none, none⟩ 2,
             CartOp.add ⟨"ff01", "B", "d", 5, none, 2, none, none⟩ 1]).Pairwise
      (fun a b => a.product_id_string ≠ b.product_id_string) ∧
    runOps (([2, 3] : List Int).map fun n =>
        CartOp.add ⟨"ab12", "A", "d", 10, none, 3, none, none⟩ n) =
      [mkCartItem (adaptProduct ⟨"ab12", "A", "d", 10, none, 3, none, none⟩)
        ([2, 3] : List Int).sum] :=
  ⟨cart_merge_unique_per_product.1 _,
   cart_merge_unique_per_product.2 _ [2, 3] (by decide)⟩

/-! ## updateQuantity behaviour -/

lemma updateQuantity_untouched (id k : Int) :
    ∀ (l : List CartItem), (∀ it ∈ l, it.id ≠ id ∧ 0 < it.quantity) →
      ((l.map fun item =>
          if item.id = id then { item with quantity := k } else item).filter
        (fun item => 0 < item.quantity)) = l := by
  intro l
  induction l with
  | nil => intro _; rfl
  | cons a rest ih =>
    intro h
    have ha := h a (List.mem_cons_self a rest)
    have h' : ∀ it ∈ rest, it.id ≠ id ∧ 0 < it.quantity :=
      fun it hit => h it (List.mem_cons_of_mem a hit)
    simp [List.filter_cons, ha.1, ha.2, ih h']

/-- C5: on a cart whose other items all have a different display id and a
positive quantity, `updateQuantity(id, k)` with `k > 0` sets the matching
item's quantity to exactly `k` leaving every other item unchanged, and
with `k ≤ 0` (in particular `k = 0`, i.e. `max(0, k) = 0`) removes the
matching item instead of keeping a non-positive quantity. -/
theorem updateQuantity_sets_or_removes
    (pre post : List CartItem) (target : CartItem) (id k : Int)
    (htid : target.id = id)
    (hothers : ∀ it ∈ pre ++ post, it.id ≠ id ∧ 0 < it.quantity) :
    updateQuantity (pre ++ target :: post) id k =
      if 0 < k then pre ++ { target with quantity := k } :: post
      else pre ++ post := by
  have hpre : ∀ it ∈ pre, it.id ≠ id ∧ 0 < it.quantity :=
    fun it hit => hothers it (List.mem_append_left _ hit)
  have hpost : ∀ it ∈ post, it.id ≠ id ∧ 0 < it.quantity :=
    fun it hit => hothers it (List.mem_append_right _ hit)
  unfold updateQuantity
  rw [List.map_append, List.filter_append, List.map_cons]
  rw [updateQuantity_untouched id k pre hpre]
  by_cases hk : 0 < k
  · rw [if_pos hk, List.filter_cons_of_pos (by simp [htid, hk]),
      if_pos htid, updateQuantity_untouched id k post hpost]
  · rw [if_neg hk, List.filter_cons_of_neg (by simp [htid, hk]),
      updateQuantity_untouched id k post hpost]

/-- Witness for C5 at a concrete two-item cart: setting quantity 3 on
the item with display id 5. -/
theorem updateQuantity_sets_or_removes_witness :
    updateQuantity
        ([⟨⟨1, "A", 10, "i", "c", 0, 0, true, "", 5, "ab"⟩, 2⟩] ++
          (⟨⟨5, "T", 3, "i", "c", 0, 0, true, "", 5, "cd"⟩, 1⟩ : CartItem) :: []) 5 3 =
      if (0 : Int) < 3 then
        [⟨⟨1, "A", 10, "i", "c", 0, 0, true, "", 5, "ab"⟩, 2⟩] ++
          ({ (⟨⟨5, "T", 3, "i", "c", 0, 0, true, "", 5, "cd"⟩, 1⟩ : CartItem) with
              quantity := 3 }) :: []
      else [⟨⟨1, "A", 10, "i", "c", 0, 0, true, "", 5, "ab"⟩, 2⟩] ++ [] :=
  updateQuantity_sets_or_removes _ _ _ 5 3 rfl (by decide)

/-! ## placeOrder behaviour -/

lemma buildOrderItems_ok (orderId : String) :
    ∀ (items : List CartItem), (∀ it ∈ items, it.product_id_string ≠ "") →
      buildOrderItems orderId items =
        .ok (items.map fun it =>
          { order_id := orderId, product_id := it.product_id_string,
            quantity := it.quantity, price_at_purchase := it.price }) := by
  intro items
  induction items with
  | nil => intro _; rfl
  | cons a rest ih =>
    intro h
    have ha : a.product_id_string ≠ "" := h a (List.mem_cons_self a rest)
    have h' := ih (fun it hit => h it (List.mem_cons_of_mem a hit))
    simp only [buildOrderItems, if_neg ha, h', List.map_cons]

lemma buildOrderItems_error (orderId : String) :
    ∀ (items : List CartItem), (∃ it ∈ items, it.product_id_string = "") →
      ∃ name, buildOrderItems orderId items = .error name := by
  intro items
  induction items with
  | nil =>
    rintro ⟨it, hmem, _⟩
    cases hmem
  | cons a rest ih =>
    rintro ⟨it, hmem, hpid⟩
    by_cases ha : a.product_id_string = ""
    · exact ⟨a.name, by simp only [buildOrderItems, if_pos ha]⟩
    · have hit : it ∈ rest := by
        rcases List.mem_cons.mp hmem with rfl | hmem'
        · exact absurd hpid ha
        · exact hmem'
      obtain ⟨name, hname⟩ := ih ⟨it, hit, hpid⟩
      exact ⟨name, by simp only [buildOrderItems, if_neg ha, hname]⟩

/-- C2: whenever every cart line item carries a non-empty persisted
product identifier, every `order_items` batch emitted by `placeOrder`
has one row per line item whose `product_id` is exactly that item's
original string token (never the derived numeric display id, which is
not even part of the emitted row). -/
theorem order_lines_carry_persisted_id
    (userProfile : Option UserProfileData) (cartItems : List CartItem)
    (store : StoreBehavior)
    (h : ∀ it ∈ cartItems, it.product_id_string ≠ "") :
    ∀ rows, DbWrite.insertOrderItems rows ∈ (placeOrder userProfile cartItems store).writes →
      rows.map (fun row => row.product_id) =
        cartItems.map (fun it => it.product_id_string) := by
  intro rows hmem
  cases userProfile with
  | none => simp [placeOrder] at hmem
  | some profile =>
    cases horder : store.orderInsert with
    | error msg => simp [placeOrder, horder] at hmem
    | ok orderId =>
      rw [show placeOrder (some profile) cartItems store = _ from rfl] at hmem
      simp only [placeOrder, horder, buildOrderItems_ok orderId cartItems h] at hmem
      cases hitems : store.itemsInsert with
      | some msg =>
        rw [hitems] at hmem
        simp at hmem
        subst hmem
        simp [List.map_map, Function.comp]
      | none =>
        rw [hitems] at hmem
        simp at hmem
        subst hmem
        simp [List.map_map, Function.comp]

/-- Witness for C2 at a concrete one-item cart. -/
theorem order_lines_carry_persisted_id_witness :
    ([({ order_id := "o1", product_id := "ab12", quantity := 2,
         price_at_purchase := 10 } : OrderLineRow)].map fun row => row.product_id) =
      ([(⟨⟨1, "A", 10, "i", "c", 0, 0, true, "", 5, "ab12"⟩, 2⟩ : CartItem)].map
        fun it => it.product_id_string) :=
  order_lines_carry_persisted_id (some ⟨"u"⟩)
    [⟨⟨1, "A", 10, "i", "c", 0, 0, true, "", 5, "ab12"⟩, 2⟩]
    ⟨.ok "o1", none⟩ (by decide)
    [{ order_id := "o1", product_id := "ab12", quantity := 2, price_at_purchase := 10 }]
    (by decide)

/-- C3: if any cart line item has an empty persisted product identifier,
`placeOrder` issues no `order_items` write at all, and — once the run is
authenticated and the order header insert succeeded, i.e. the validation
step is reached — the reported failure is `MissingProductReference`. -/
theorem missing_reference_blocks_order_lines
    (userProfile : Option UserProfileData) (cartItems : List CartItem)
    (store : StoreBehavior)
    (h : ∃ it ∈ cartItems, it.product_id_string = "") :
    (∀ rows, DbWrite.insertOrderItems rows ∉ (placeOrder userProfile cartItems store).writes) ∧
    (∀ profile, userProfile = some profile →
      ∀ orderId, store.orderInsert = .ok orderId →
        ∃ name, (placeOrder userProfile cartItems store).outcome =
          .error (.missingProductReference name)) := by
  constructor
  · intro rows hmem
    cases userProfile with
    | none => simp [placeOrder] at hmem
    | some profile =>
      cases horder : store.orderInsert with
      | error msg => simp [placeOrder, horder] at hmem
      | ok orderId =>
        obtain ⟨name, hname⟩ := buildOrderItems_error orderId cartItems h
        simp [placeOrder, horder, hname] at hmem
  · rintro profile rfl orderId horder
    obtain ⟨name, hname⟩ := buildOrderItems_error orderId cartItems h
    exact ⟨name, by simp [placeOrder, horder, hname]⟩

/-- Witness for C3 at a concrete cart whose single item lacks the
persisted identifier. -/
theorem missing_reference_blocks_order_lines_witness :
    (DbWrite.insertOrderItems [] ∉
      (placeOrder (some ⟨"u"⟩) [⟨⟨1, "A", 10, "i", "c", 0, 0, true, "", 5, ""⟩, 2⟩]
        ⟨.ok "o1", none⟩).writes) ∧
    ∃ name,
      (placeOrder (some ⟨"u"⟩) [⟨⟨1, "A", 10, "i", "c", 0, 0, true, "", 5, ""⟩, 2⟩]
        ⟨.ok "o1", none⟩).outcome = .error (.missingProductReference name) :=
  ⟨(missing_reference_blocks_order_lines (some ⟨"u"⟩)
      [⟨⟨1, "A", 10, "i", "c", 0, 0, true, "", 5, ""⟩, 2⟩] ⟨.ok "o1", none⟩
      ⟨⟨⟨1, "A", 10, "i", "c", 0, 0, true, "", 5, ""⟩, 2⟩, by decide, rfl⟩).1 [],
   (missing_reference_blocks_order_lines (some ⟨"u"⟩)
      [⟨⟨1, "A", 10, "i", "c", 0, 0, true, "", 5, ""⟩, 2⟩] ⟨.ok "o1", none⟩
      ⟨⟨⟨1, "A", 10, "i", "c", 0, 0, true, "", 5, ""⟩, 2⟩, by decide, rfl⟩).2 ⟨"u"⟩ rfl "o1" rfl⟩

/-- C4: when the order header insert succeeded and the `order_items`
batch insert then fails, `placeOrder` leaves exactly the two issued
inserts as its write trace — the pending header row is not rolled back
or compensated (no further write exists) — and the cart is not cleared;
conversely the cart is cleared only when both inserts succeeded. -/
theorem no_rollback_on_items_failure :
    (∀ (profile : UserProfileData) (cartItems : List CartItem) (store : StoreBehavior)
        (orderId errMsg : String),
      store.orderInsert = .ok orderId →
      (∀ it ∈ cartItems, it.product_id_string ≠ "") →
      store.itemsInsert = some errMsg →
      (placeOrder (some profile) cartItems store).writes =
        [DbWrite.insertOrder
          { customer_id := profile.id,
            total_amount := totalOf (checkoutSubtotal cartItems),
            status := "pending" },
         DbWrite.insertOrderItems (cartItems.map fun it =>
          { order_id := orderId, product_id := it.product_id_string,
            quantity := it.quantity, price_at_purchase := it.price })] ∧
      (placeOrder (some profile) cartItems store).cleared = false) ∧
    (∀ (userProfile : Option UserProfileData) (cartItems : List CartItem)
        (store : StoreBehavior),
      (placeOrder userProfile cartItems store).cleared = true →
      store.itemsInsert = none ∧ ∃ orderId, store.orderInsert = .ok orderId) := by
  constructor
  · intro profile cartItems store orderId errMsg horder h hitems
    constructor
    · simp [placeOrder, horder, buildOrderItems_ok orderId cartItems h, hitems]
    · simp [placeOrder, horder, buildOrderItems_ok orderId cartItems h, hitems]
  · intro userProfile cartItems store hcleared
    cases userProfile with
    | none => simp [placeOrder] at hcleared
    | some profile =>
      cases horder : store.orderInsert with
      | error msg => simp [placeOrder, horder] at hcleared
      | ok orderId =>
        cases hbuild : buildOrderItems orderId cartItems with
        | error name => simp [placeOrder, horder, hbuild] at hcleared
        | ok rows =>
          cases hitems : store.itemsInsert with
          | some msg => simp [placeOrder, horder, hbuild, hitems] at hcleared
          | none => exact ⟨rfl, orderId, rfl⟩

/-- Witness for C4 at a concrete run where the `order_items` insert is
rejected. -/
theorem no_rollback_on_items_failure_witness :
    ((placeOrder (some ⟨"u"⟩) [⟨⟨1, "A", 10, "i", "c", 0, 0, true, "", 5, "ab12"⟩, 2⟩]
        ⟨.ok "o1", some "boom"⟩).writes =
      [DbWrite.insertOrder
        { customer_id := "u",
          total_amount := totalOf (checkoutSubtotal
            [⟨⟨1, "A", 10, "i", "c", 0, 0, true, "", 5, "ab12"⟩, 2⟩]),
          status := "pending" },
       DbWrite.insertOrderItems
        ([(⟨⟨1, "A", 10, "i", "c", 0, 0, true, "", 5, "ab12"⟩, 2⟩ : CartItem)].map
          fun it =>
            { order_id := "o1", product_id := it.product_id_string,
              quantity := it.quantity, price_at_purchase := it.price })]) ∧
    (placeOrder (some ⟨"u"⟩) [⟨⟨1, "A", 10, "i", "c", 0, 0, true, "", 5, "ab12"⟩, 2⟩]
        ⟨.ok "o1", some "boom"⟩).cleared = false :=
  no_rollback_on_items_failure.1 ⟨"u"⟩
    [⟨⟨1, "A", 10, "i", "c", 0, 0, true, "", 5, "ab12"⟩, 2⟩]
    ⟨.ok "o1", some "boom"⟩ "o1" "boom" rfl (by decide) rfl

/-! ## Cart component total -/

lemma cartTotal_foldl_shift (l : List RawCartEntry) :
    ∀ s : ℚ,
      l.foldl (fun sum item => sum + jsNumOr0 item.price * jsNumOr0 item.quantity) s =
        s + cartTotal l := by
  induction l with
  | nil => intro s; simp [cartTotal]
  | cons a rest ih =>
    intro s
    show List.foldl _ (s + _) rest = s + List.foldl _ (0 + _) rest
    rw [ih, ih]
    ring

lemma cartTotal_cons (a : RawCartEntry) (rest : List RawCartEntry) :
    cartTotal (a :: rest) =
      jsNumOr0 a.price * jsNumOr0 a.quantity + cartTotal rest := by
  show List.foldl _ (0 + _) rest = _
  rw [cartTotal_foldl_shift, zero_add]

/-- C6: the Cart component total is the sum of `price × quantity` over
the line items (0 on the empty cart, 25 on the two items price 10 ×
qty 2 and price 5 × qty 1), and a line item whose price or quantity
coerces to `NaN` contributes zero — the total never propagates `NaN`
(its value is always a rational number). -/
theorem cartTotal_defensive_sum :
    cartTotal [] = 0 ∧
    cartTotal [⟨.num 10, .num 2⟩, ⟨.num 5, .num 1⟩] = 25 ∧
    (∀ items : List RawCartEntry,
      cartTotal items =
        (items.map fun it => jsNumOr0 it.price * jsNumOr0 it.quantity).sum) ∧
    (∀ (pre post : List RawCartEntry) (e : RawCartEntry),
      e.price = .nan ∨ e.quantity = .nan →
      cartTotal (pre ++ e :: post) = cartTotal (pre ++ post)) := by
  refine ⟨rfl, by norm_num [cartTotal, jsNumOr0], ?_, ?_⟩
  · intro items
    induction items with
    | nil => rfl
    | cons a rest ih => rw [cartTotal_cons, ih, List.map_cons, List.sum_cons]
  · intro pre post e he
    have hzero : jsNumOr0 e.price * jsNumOr0 e.quantity = 0 := by
      rcases he with h | h <;> rw [h] <;> simp [jsNumOr0]
    induction pre with
    | nil =>
      show cartTotal (e :: post) = cartTotal post
      rw [cartTotal_cons, hzero, zero_add]
    | cons a rest ih =>
      show cartTotal (a :: (rest ++ e :: post)) = cartTotal (a :: (rest ++ post))
      rw [cartTotal_cons, cartTotal_cons, ih]

/-- Witness for C6: a `NaN`-priced entry in the middle of a concrete
cart contributes nothing to the total. -/
theorem cartTotal_defensive_sum_witness :
    cartTotal ([⟨.num 10, .num 2⟩] ++ (⟨.nan, .num 7⟩ : RawCartEntry) :: [⟨.num 5, .num 1⟩]) =
      cartTotal ([⟨.num 10, .num 2⟩] ++ [⟨.num 5, .num 1⟩]) :=
  cartTotal_defensive_sum.2.2.2 [⟨.num 10, .num 2⟩] [⟨.num 5, .num 1⟩]
    ⟨.nan, .num 7⟩ (Or.inl rfl)

/-! ## Checkout order summary -/

/-- C7: the order summary derives `shipping = 0` when `subtotal > 500`
and `50` otherwise, `tax = subtotal × 0.08`, and
`total = subtotal + shipping + tax`; concretely subtotal 600 gives
shipping 0, tax 48, total 648 and subtotal 100 gives shipping 50,
tax 8, total 158; and the total written into the order header row by
`placeOrder` is exactly this derived total of the cart's subtotal. -/
theorem order_summary_formulas :
    (∀ s : ℚ,
      (500 < s → shippingOf s = 0) ∧ (s ≤ 500 → shippingOf s = 50) ∧
      taxOf s = s * (8 / 100) ∧ totalOf s = s + shippingOf s + taxOf s) ∧
    (shippingOf 600 = 0 ∧ taxOf 600 = 48 ∧ totalOf 600 = 648) ∧
    (shippingOf 100 = 50 ∧ taxOf 100 = 8 ∧ totalOf 100 = 158) ∧
    (∀ (profile : UserProfileData) (cartItems : List CartItem) (store : StoreBehavior)
        (row : OrderHeaderRow),
      DbWrite.insertOrder row ∈ (placeOrder (some profile) cartItems store).writes →
      row.total_amount = totalOf (checkoutSubtotal cartItems)) := by
  refine ⟨?_, ?_, ?_, ?_⟩
  · intro s
    refine ⟨fun h => if_pos h, fun h => if_neg (not_lt.mpr h), ?_, rfl⟩
    show s * (0.08 : ℚ) = s * (8 / 100)
    norm_num
  · refine ⟨if_pos (by norm_num), ?_, ?_⟩ <;>
      norm_num [totalOf, taxOf, shippingOf]
  · refine ⟨if_neg (by norm_num), ?_, ?_⟩ <;>
      norm_num [totalOf, taxOf, shippingOf]
  · intro profile cartItems store row hmem
    cases horder : store.orderInsert with
    | error msg =>
      simp [placeOrder, horder] at hmem
      rw [hmem]
    | ok orderId =>
      cases hbuild : buildOrderItems orderId cartItems with
      | error name =>
        simp [placeOrder, horder, hbuild] at hmem
        rw [hmem]
      | ok rows =>
        cases hitems : store.itemsInsert with
        | some msg =>
          simp [placeOrder, horder, hbuild, hitems] at hmem
          rw [hmem]
        | none =>
          simp [placeOrder, horder, hbuild, hitems] at hmem
          rw [hmem]

/-- Witness for C7: the shipping rule at subtotal 600, and the header
row emitted for a concrete empty cart carries `totalOf` of its
subtotal (which is 50: 0 subtotal + 50 shipping + 0 tax). -/
theorem order_summary_formulas_witness :
    shippingOf 600 = 0 ∧
    ({ customer_id := "u", total_amount := (50 : ℚ), status := "pending" } :
        OrderHeaderRow).total_amount = totalOf (checkoutSubtotal []) :=
  ⟨(order_summary_formulas.1 600).1 (by norm_num),
   order_summary_formulas.2.2.2 ⟨"u"⟩ [] ⟨.ok "o1", none⟩
     { customer_id := "u", total_amount := 50, status := "pending" }
     (by norm_num [placeOrder, buildOrderItems, checkoutSubtotal, totalOf,
        shippingOf, taxOf])⟩

/-! ## Catalog search failure mode -/

/-- C8: for a non-empty search text, an unavailable embedding service
(`generateEmbedding` resolving to `null`) makes the catalog fetch fail
with `EmbeddingUnavailable` — no product list is produced, so the
failure is never a silent empty success and no keyword-search fallback
is taken. -/
theorem search_fails_on_embedding_unavailable :
    ∀ (searchQuery selectedCategory : String)
      (rpcResult regularResult : Except String (List FetchedProduct)),
      searchQuery ≠ "" →
      fetchProducts searchQuery selectedCategory none rpcResult regularResult =
        .error .embeddingUnavailable ∧
      ∀ results, fetchProducts searchQuery selectedCategory none rpcResult regularResult ≠
        .ok results := by
  intro q cat rpc reg hq
  have h : fetchProducts q cat none rpc reg = .error .embeddingUnavailable := by
    simp [fetchProducts, hq]
  refine ⟨h, fun results hok => ?_⟩
  rw [h] at hok
  cases hok

/-- Witness for C8 at the concrete query string `shoes`. -/
theorem search_fails_on_embedding_unavailable_witness :
    fetchProducts "shoes" "All" none (.ok []) (.ok []) =
      .error .embeddingUnavailable :=
  (search_fails_on_embedding_unavailable "shoes" "All" (.ok []) (.ok [])
    (by decide)).1

/-! ## Seller delete predicate -/

/-- C9: the seller dashboard delete emits the compound predicate (`id`
and `seller_id`); under the record store's semantics a row is removed
exactly when it matches both, so every row belonging to a different
seller survives the delete — a seller cannot delete another seller's
row by supplying its id. -/
theorem delete_requires_owner_predicate :
    ∀ (table : List ProductRow) (productId userId : String),
      handleDeleteProduct productId userId =
        { idEq := productId, sellerEq := userId } ∧
      (∀ row ∈ table,
        (row ∈ applyDelete table (handleDeleteProduct productId userId) ↔
          ¬ (row.id = productId ∧ row.seller_id = userId))) ∧
      (∀ row ∈ table, row.seller_id ≠ userId →
        row ∈ applyDelete table (handleDeleteProduct productId userId)) := by
  intro table pid uid
  refine ⟨rfl, ?_, ?_⟩
  · intro row hrow
    constructor
    · intro hmem
      have h2 := (List.mem_filter.mp hmem).2
      rw [decide_eq_true_eq] at h2
      exact h2
    · intro hnot
      refine List.mem_filter.mpr ⟨hrow, ?_⟩
      rw [decide_eq_true_eq]
      exact hnot
  · intro row hrow hne
    refine List.mem_filter.mpr ⟨hrow, ?_⟩
    rw [decide_eq_true_eq]
    exact fun hand => hne hand.2

/-- Witness for C9: on a concrete two-row table, deleting product `p1`
as seller `s1` keeps the row owned by seller `s2`. -/
theorem delete_requires_owner_predicate_witness :
    (⟨"p2", "s2"⟩ : ProductRow) ∈
      applyDelete [⟨"p1", "s1"⟩, ⟨"p2", "s2"⟩] (handleDeleteProduct "p1" "s1") :=
  (delete_requires_owner_predicate [⟨"p1", "s1"⟩, ⟨"p2", "s2"⟩] "p1" "s1").2.2
    ⟨"p2", "s2"⟩ (by decide) (by decide)

/-! ## The derived-id fallback -/

lemma jsParseIntHexCore_cons_fail (c : Char) (l : List Char)
    (hhex : isJsHexDigit c = false) (hws : isJsWhitespace c = false)
    (hplus : c ≠ '+') (hminus : c ≠ '-') :
    jsParseIntHexCore (c :: l) = none := by
  have h0 : c ≠ '0' := by
    intro h
    rw [h] at hhex
    exact absurd hhex (by decide)
  have hsign1 : ¬ ((c :: l).head? = some '-') := by simp [hminus]
  have hsign2 : ¬ ((c :: l).head? = some '-' ∨ (c :: l).head? = some '+') := by
    simp [hminus, hplus]
  have htake : ¬ ((c :: l).take 2 = ['0', 'x'] ∨ (c :: l).take 2 = ['0', 'X']) := by
    rcases l with _ | ⟨d, t⟩ <;> simp [h0]
  have hdrop : (c :: l).dropWhile isJsWhitespace = c :: l := by
    rw [List.dropWhile_cons, hws]
    simp
  have htw : (c :: l).takeWhile isJsHexDigit = [] := by
    rw [List.takeWhile_cons, hhex]
    simp
  unfold jsParseIntHexCore
  simp only [hdrop, if_neg hsign1, if_neg hsign2, if_neg htake, htw]
  rfl

lemma deriveDisplayId_head_fail (s : String) (c : Char)
    (hhead : s.data.head? = some c)
    (hhex : isJsHexDigit c = false) (hws : isJsWhitespace c = false)
    (hplus : c ≠ '+') (hminus : c ≠ '-') :
    deriveDisplayId s = 0 := by
  obtain ⟨rest, hs⟩ : ∃ rest, s.data = c :: rest := by
    cases h : s.data with
    | nil => rw [h] at hhead; cases hhead
    | cons a l =>
      rw [h, List.head?_cons, Option.some.injEq] at hhead
      exact ⟨l, by rw [hhead]⟩
  show (jsParseIntHexCore (String.mk (s.data.take 8)).data).getD 0 = 0
  rw [hs]
  show (jsParseIntHexCore ((c :: rest).take 8)).getD 0 = 0
  rw [List.take_succ_cons, jsParseIntHexCore_cons_fail c _ hhex hws hplus hminus]
  rfl

/-- C10 counterexample: the persisted identifier `-1` does not begin
with a hexadecimal digit, yet the derived numeric display identifier is
`-1`, not `0` — `parseInt(s, 16)` accepts an optional leading sign, so
the claimed conclusion fails for sign-prefixed identifiers. -/
theorem derive_id_fallback_counterexample :
    isJsHexDigit '-' = false ∧
    ("-1" : String).data.head? = some '-' ∧
    deriveDisplayId "-1" = -1 ∧
    ¬ deriveDisplayId "-1" = 0 := by decide

/-- C10 (amended): if a product's persisted string identifier begins
with a character that is not a hexadecimal digit, not whitespace and
not a sign (`+`/`-`), the base-16 parse fails and the derived display
identifier falls back to 0; consequently, adding two such products to
an empty cart produces a single merged line item (the second add
increments the first item's quantity) that retains only the first
product's persisted string identifier. -/
theorem derive_id_fallback_amended :
    (∀ (s : String) (c : Char), s.data.head? = some c →
      isJsHexDigit c = false → isJsWhitespace c = false → c ≠ '+' → c ≠ '-' →
      deriveDisplayId s = 0) ∧
    (∀ (p1 p2 : FetchedProduct) (q1 q2 : Int) (c1 c2 : Char),
      p1.id.data.head? = some c1 → isJsHexDigit c1 = false →
      isJsWhitespace c1 = false → c1 ≠ '+' → c1 ≠ '-' →
      p2.id.data.head? = some c2 → isJsHexDigit c2 = false →
      isJsWhitespace c2 = false → c2 ≠ '+' → c2 ≠ '-' →
      addToCart (addToCart [] p1 q1) p2 q2 =
        [mkCartItem (adaptProduct p1) (q1 + q2)]) := by
  refine ⟨deriveDisplayId_head_fail, ?_⟩
  intro p1 p2 q1 q2 c1 c2 h1 h2 h3 h4 h5 h6 h7 h8 h9 h10
  have e1 : (adaptProduct p1).id = 0 := deriveDisplayId_head_fail p1.id c1 h1 h2 h3 h4 h5
  have e2 : (adaptProduct p2).id = 0 := deriveDisplayId_head_fail p2.id c2 h6 h7 h8 h9 h10
  have hfirst : addToCart [] p1 q1 = [mkCartItem (adaptProduct p1) q1] := by
    simp [addToCart]
  rw [hfirst]
  unfold addToCart
  rw [if_pos (by simp [mkCartItem, e1, e2])]
  simp [mkCartItem, e1, e2]

/-- Witness for the amended C10 at the concrete identifiers `zz1` and
`yy2` (both start with a letter outside the hexadecimal range). -/
theorem derive_id_fallback_amended_witness :
    deriveDisplayId "zz" = 0 ∧
    addToCart (addToCart [] ⟨"zz1", "A", "d", 10, none, 3, none, none⟩ 1)
        ⟨"yy2", "B", "d", 5, none, 2, none, none⟩ 1 =
      [mkCartItem (adaptProduct ⟨"zz1", "A", "d", 10, none, 3, none, none⟩) (1 + 1)] :=
  ⟨derive_id_fallback_amended.1 "zz" 'z' rfl (by decide) (by decide)
     (by decide) (by decide),
   derive_id_fallback_amended.2 ⟨"zz1", "A", "d", 10, none, 3, none, none⟩
     ⟨"yy2", "B", "d", 5, none, 2, none, none⟩ 1 1 'z' 'y'
     rfl (by decide) (by decide) (by decide) (by decide)
     rfl (by decide) (by decide) (by decide) (by decide)⟩

end Marketplace
